import Mathlib

/-
Verification of the chirouter frame classifier (src/c/router.c).

The definitions below are a shallow embedding of the C source. Pure helpers
of router.c (get_forward_ip, chirouter_get_matching_entry,
chirouter_find_match_router, chirouter_send_icmp, forward_ip_datagram,
chirouter_process_ethernet_frame) are translated function by function.
Frames are modelled structurally: an inbound frame carries the parsed view
of the byte regions the C code reads (Ethernet header, IPv4 header at byte
14, the ICMP view of the bytes at byte 34, the ARP view of the bytes at
byte 14, and the raw IP payload bytes).  MAC addresses and IPv4 addresses
are modelled as the natural number their bytes denote; the C code only
copies and compares them, and bitwise AND commutes with byte order, so
this is exact.

Operations implemented outside router.c (the ARP cache and the pending
ARP request table from arp.c, the ARP message builder, and the Internet
checksum from utils.c) are not part of the given sources; they are
modelled from the spec, and each such definition says so in its doc
comment.  Outcomes of the C code that are undefined behaviour (reading
the return value when control falls off the end of the non-void
chirouter_process_ethernet_frame, dereferencing a NULL routing entry in
forward_ip_datagram, a negative payload length in chirouter_send_icmp)
are represented by Option: the missing return value is ret = none, and a
crash makes the whole result none.
-/

/-! ## Protocol constants (from ethernet.h / arp.h / icmp.h) -/

def ETHERTYPE_IP : Nat := 0x0800
def ETHERTYPE_IPV6 : Nat := 0x86DD
def ETHERTYPE_ARP : Nat := 0x0806

def IPPROTO_ICMP : Nat := 1
def IPPROTO_TCP : Nat := 6
def IPPROTO_UDP : Nat := 17

def ICMPTYPE_ECHO_REPLY : Nat := 0
def ICMPTYPE_DEST_UNREACHABLE : Nat := 3
def ICMPTYPE_ECHO_REQUEST : Nat := 8
def ICMPTYPE_TIME_EXCEEDED : Nat := 11

def ICMPCODE_DEST_NET_UNREACHABLE : Nat := 0
def ICMPCODE_DEST_HOST_UNREACHABLE : Nat := 1
def ICMPCODE_DEST_PROTOCOL_UNREACHABLE : Nat := 2
def ICMPCODE_DEST_PORT_UNREACHABLE : Nat := 3

def ARP_OP_REQUEST : Nat := 1
def ARP_OP_REPLY : Nat := 2

/-- Size in bytes of the fixed ICMP header (type, code, checksum and the
4-byte rest-of-header shared by the echo and error variants). -/
def ICMP_HDR_SIZE : Nat := 8

/-- The all-ones Ethernet broadcast address ff:ff:ff:ff:ff:ff as a number. -/
def BROADCAST_MAC : Nat := 0xffffffffffff

/-! ## Data model -/

/-- A router interface: its MAC address and IPv4 address (the name string
is never consulted by router.c and is omitted). -/
structure Iface where
  mac : Nat
  ip : Nat
deriving DecidableEq

/-- Parsed view of a 20-byte IPv4 header (struct iphdr).  Multi-byte
fields hold the value their big-endian bytes denote. -/
structure IpHdr where
  ihl : Nat
  version : Nat
  tos : Nat
  len : Nat
  id : Nat
  off : Nat
  ttl : Nat
  proto : Nat
  cksum : Nat
  src : Nat
  dst : Nat
deriving DecidableEq

/-- Parsed view of an ARP packet (struct arp_packet), Ethernet/IPv4
variant: operation, sender hardware/protocol address, target
hardware/protocol address. -/
structure ArpView where
  op : Nat
  sha : Nat
  spa : Nat
  tha : Nat
  tpa : Nat
deriving DecidableEq

/-- An inbound Ethernet frame (ethernet_frame_t) together with the parsed
views of its byte regions that router.c reads: the Ethernet header, the
bytes at offset 14 read as an IPv4 header, the bytes at offset 34 read as
an ICMP packet (echo view: identifier, sequence number, opaque payload),
the bytes at offset 14 read as an ARP packet, and the raw bytes of the IP
payload (everything after byte 34). -/
structure InFrame where
  length : Nat
  in_interface : Iface
  ethDst : Nat
  ethSrc : Nat
  etherType : Nat
  ip : IpHdr
  icmpType : Nat
  icmpCode : Nat
  icmpIdent : Nat
  icmpSeq : Nat
  icmpPayload : List Nat
  ipPayloadBytes : List Nat
  arp : ArpView
deriving DecidableEq

/-- A routing table entry (chirouter_rtable_entry_t): destination network,
mask, gateway (0 means directly connected) and the egress interface. -/
structure RTableEntry where
  dest : Nat
  mask : Nat
  gw : Nat
  interface : Iface
deriving DecidableEq

/-- An ARP cache entry (chirouter_arpcache_entry_t): IPv4 address, MAC
address and insertion timestamp. -/
structure ArpCacheEntry where
  ip : Nat
  mac : Nat
  time : Nat
deriving DecidableEq

/-- A pending ARP request (chirouter_pending_arp_req_t): the unresolved
IPv4 address, the egress interface, retry bookkeeping and the list of
withheld frames (each an owned deep copy of the original inbound frame,
whose in_interface field records its original ingress). -/
structure PendingReq where
  ip : Nat
  interface : Iface
  times_sent : Nat
  last_sent : Nat
  withheld_frames : List InFrame
deriving DecidableEq

/-- The per-router context (chirouter_ctx_t): interfaces, routing table,
ARP cache and pending ARP request list.  The mutex is not represented:
within one call every critical section is data-race free because the
embedding is sequential. -/
structure Ctx where
  interfaces : List Iface
  routing_table : List RTableEntry
  arp_cache : List ArpCacheEntry
  pending_arp_reqs : List PendingReq
deriving DecidableEq

/-- Allocation oracle: whether the heap allocations performed by
chirouter_arp_cache_add and chirouter_arp_pending_req_add_frame succeed
during this call.  router.c only observes the success/failure code of
those two operations. -/
structure Alloc where
  cache_add_ok : Bool
  attach_ok : Bool
deriving DecidableEq

/-! ## Output messages -/

/-- The ICMP frame built by chirouter_send_icmp, field by field. -/
structure IcmpReply where
  ethDst : Nat
  ethSrc : Nat
  etherType : Nat
  ip : IpHdr
  icmpType : Nat
  icmpCode : Nat
  icmpCksum : Nat
  icmpIdent : Nat
  icmpSeq : Nat
  icmpPayload : List Nat
  reply_len : Nat
deriving DecidableEq

/-- The forwarded frame built by forward_ip_datagram, field by field. -/
structure FwdFrame where
  ethDst : Nat
  ethSrc : Nat
  etherType : Nat
  ip : IpHdr
  ipPayloadBytes : List Nat
  msg_len : Nat
deriving DecidableEq

/-- An ARP packet built by chirouter_send_arp_message together with its
Ethernet destination. -/
structure ArpOut where
  ethDst : Nat
  ethSrc : Nat
  op : Nat
  sha : Nat
  spa : Nat
  tha : Nat
  tpa : Nat
deriving DecidableEq

/-- One frame handed to chirouter_send_frame: the egress interface and the
structured content, tagged by which builder produced it. -/
inductive OutMsg where
  | icmp (iface : Iface) (r : IcmpReply)
  | fwd (iface : Iface) (g : FwdFrame)
  | arp (iface : Iface) (a : ArpOut)
deriving DecidableEq

/-- The observable outcome of one chirouter_process_ethernet_frame call:
the returned status (none when control reaches the end of the non-void
function without a return statement), the frames sent, in order, and the
router context afterwards. -/
structure ProcOut where
  ret : Option Int
  sent : List OutMsg
  ctx : Ctx
deriving DecidableEq

/-! ## Internet checksum and header serialization.

Modelled from the spec: the cksum function lives in utils.c, which is not
among the given sources.  Spec 4.1: one's-complement sum of 16-bit
big-endian words, an odd trailing byte padded with a zero.  Three
end-around carry folds bring the sum below 2^16 for any buffer of fewer
than 2^16 words, which covers every frame a router handles (length is
bounded by MTU + 14). -/

/-- Group bytes into big-endian 16-bit words, padding an odd trailing
byte with a zero second byte. -/
def words16 : List Nat → List Nat
  | [] => []
  | [b] => [b % 256 * 256]
  | b1 :: b2 :: rest => (b1 % 256 * 256 + b2 % 256) :: words16 rest

/-- Modelled from the spec: the Internet checksum over a byte buffer
(one's-complement of the end-around-carry sum of its 16-bit words). -/
def cksum (bytes : List Nat) : Nat :=
  let s0 := (words16 bytes).foldl (· + ·) 0
  let s1 := s0 % 65536 + s0 / 65536
  let s2 := s1 % 65536 + s1 / 65536
  let s3 := s2 % 65536 + s2 / 65536
  65535 - s3

/-- Big-endian bytes of a 16-bit value. -/
def be16 (n : Nat) : List Nat := [n / 256 % 256, n % 256]

/-- Big-endian bytes of a 32-bit value. -/
def be32 (n : Nat) : List Nat :=
  [n / 16777216 % 256, n / 65536 % 256, n / 256 % 256, n % 256]

/-- The 20 on-wire bytes of an IPv4 header (struct iphdr laid out in
network byte order). -/
def ipHdrBytes (h : IpHdr) : List Nat :=
  [h.version % 16 * 16 + h.ihl % 16, h.tos % 256] ++ be16 h.len ++ be16 h.id
    ++ be16 h.off ++ [h.ttl % 256, h.proto % 256] ++ be16 h.cksum
    ++ be32 h.src ++ be32 h.dst

/-- The on-wire bytes of the ICMP portion of a built reply: type, code,
checksum, the 4-byte rest-of-header (identifier and sequence number for
the echo variants, the zeroed unused word otherwise), then the payload. -/
def icmpBytes (r : IcmpReply) : List Nat :=
  [r.icmpType % 256, r.icmpCode % 256] ++ be16 r.icmpCksum
    ++ (if r.icmpType = ICMPTYPE_ECHO_REPLY ∨ r.icmpType = ICMPTYPE_ECHO_REQUEST then
          be16 r.icmpIdent ++ be16 r.icmpSeq
        else [0, 0, 0, 0])
    ++ r.icmpPayload

/-! ## router.c helper functions -/

/-- get_forward_ip (router.c:72): the routing entry's gateway when it is
nonzero, otherwise the original destination IP. -/
def get_forward_ip (routing_entry : RTableEntry) (dst_ip : Nat) : Nat :=
  if routing_entry.gw ≠ 0 then routing_entry.gw else dst_ip

/-- The loop body of chirouter_get_matching_entry (router.c:94-116): keep
the current result unless this entry matches and either no result exists
yet or the entry's mask is strictly larger than the result's. -/
def lpmStep (dst : Nat) (result : Option RTableEntry) (e : RTableEntry) : Option RTableEntry :=
  if Nat.land dst e.mask = e.dest then
    match result with
    | some r => if r.mask < e.mask then some e else some r
    | none => some e
  else result

/-- chirouter_get_matching_entry (router.c:88): scan the routing table in
order, keeping the first matching entry and replacing it whenever a later
matching entry has a strictly larger mask. -/
def chirouter_get_matching_entry (ctx : Ctx) (frame : InFrame) : Option RTableEntry :=
  ctx.routing_table.foldl (lpmStep frame.ip.dst) none

/-- chirouter_find_match_router (router.c:164): does any interface of the
router have the frame's destination IP? -/
def chirouter_find_match_router (ctx : Ctx) (frame : InFrame) : Bool :=
  ctx.interfaces.any (fun i => i.ip == frame.ip.dst)

/-- The payload length computed at router.c:195-204, an int in C: for the
echo types it is ntohs(ip.len) - sizeof(iphdr_t) - ICMP_HDR_SIZE, which
can be negative; otherwise sizeof(iphdr_t) + 8. -/
def payloadLenOf (t : Nat) (frame : InFrame) : Int :=
  if t = ICMPTYPE_ECHO_REPLY ∨ t = ICMPTYPE_ECHO_REQUEST then
    (frame.ip.len : Int) - 20 - ICMP_HDR_SIZE
  else (20 : Int) + 8

/-- The frame constructed by chirouter_send_icmp (router.c:186-267),
assuming a non-negative payload length (chirouter_send_icmp checks this
before using buildIcmp).  The zero-filled reply buffer means fields the
code does not write stay 0. -/
def buildIcmp (t c : Nat) (frame : InFrame) : IcmpReply :=
  let payload_len := (payloadLenOf t frame).toNat
  let isEcho := t = ICMPTYPE_ECHO_REPLY ∨ t = ICMPTYPE_ECHO_REQUEST
  let reply_len := 14 + 20 + ICMP_HDR_SIZE + payload_len
  let ipLen : Nat :=
    if isEcho then (frame.length - 14) % 65536
    else (20 + ICMP_HDR_SIZE + payload_len) % 65536
  let ip0 : IpHdr :=
    { ihl := 5, version := 4, tos := 0, len := ipLen, id := 0, off := 0,
      ttl := 64, proto := 1, cksum := 0,
      src := frame.in_interface.ip, dst := frame.ip.src }
  let ip1 := { ip0 with cksum := cksum (ipHdrBytes ip0) }
  let ident : Nat := if isEcho ∧ c = 0 then frame.icmpIdent else 0
  let seq : Nat := if isEcho ∧ c = 0 then frame.icmpSeq else 0
  let payload : List Nat :=
    if isEcho then
      (if c = 0 then frame.icmpPayload.take payload_len
       else List.replicate payload_len 0)
    else (ipHdrBytes frame.ip ++ frame.ipPayloadBytes).take payload_len
  let r0 : IcmpReply :=
    { ethDst := frame.ethSrc, ethSrc := frame.in_interface.mac,
      etherType := ETHERTYPE_IP, ip := ip1,
      icmpType := t, icmpCode := c, icmpCksum := 0,
      icmpIdent := ident, icmpSeq := seq, icmpPayload := payload,
      reply_len := reply_len }
  { r0 with icmpCksum := cksum (icmpBytes r0) }

/-- chirouter_send_icmp (router.c:186): build the reply and send it on the
interface the trigger frame arrived on.  A negative payload length (an
echo type with ip.len < 28) makes the C code declare a variable-length
array of negative size and call memcpy with a negative count, which is
undefined behaviour: none. -/
def chirouter_send_icmp (t c : Nat) (frame : InFrame) : Option OutMsg :=
  if payloadLenOf t frame < 0 then none
  else some (OutMsg.icmp frame.in_interface (buildIcmp t c frame))

/-- The frame constructed by forward_ip_datagram (router.c:134-153) once
the routing entry is known: new Ethernet header (dst = resolved MAC,
src = egress interface MAC, ethertype IPv4), the IP header and payload
copied from the original, then TTL decremented (uint8 arithmetic) and the
IPv4 checksum recomputed over the new header with its checksum field
zeroed. -/
def buildFwd (rentry : RTableEntry) (frame : InFrame) (dst_mac : Nat) : FwdFrame :=
  let ip1 := { frame.ip with ttl := (frame.ip.ttl + 255) % 256, cksum := 0 }
  let ip2 := { ip1 with cksum := cksum (ipHdrBytes ip1) }
  { ethDst := dst_mac, ethSrc := rentry.interface.mac,
    etherType := ETHERTYPE_IP, ip := ip2,
    ipPayloadBytes := frame.ipPayloadBytes.take (frame.ip.len - 20),
    msg_len := frame.length }

/-- forward_ip_datagram (router.c:126): look the routing entry up again
and transmit the rewritten frame on its interface.  The C code
dereferences the entry without a NULL check, so a missing route is
undefined behaviour: none. -/
def forward_ip_datagram (ctx : Ctx) (frame : InFrame) (dst_mac : Nat) : Option OutMsg :=
  (chirouter_get_matching_entry ctx frame).map
    (fun rentry => OutMsg.fwd rentry.interface (buildFwd rentry frame dst_mac))

/-! ## ARP cache and pending-request operations.

These functions live in arp.c, which is not among the given sources; each
is modelled from the spec (sections 4.3, 4.4 and 4.6). -/

/-- Modelled from the spec (4.3): chirouter_arp_cache_lookup, a linear
scan for the first entry with the given IP. -/
def chirouter_arp_cache_lookup (ctx : Ctx) (ip : Nat) : Option ArpCacheEntry :=
  ctx.arp_cache.find? (fun e => e.ip == ip)

/-- Modelled from the spec (4.3): chirouter_arp_cache_add inserts or
refreshes the entry for ip and stamps the insertion time.  Allocation
failure is observed through the Alloc oracle in the caller. -/
def chirouter_arp_cache_add (ctx : Ctx) (ip mac now : Nat) : Ctx :=
  if ctx.arp_cache.any (fun e => e.ip == ip) then
    { ctx with arp_cache :=
        ctx.arp_cache.map (fun e => if e.ip == ip then { e with mac := mac, time := now } else e) }
  else
    { ctx with arp_cache := ctx.arp_cache ++ [{ ip := ip, mac := mac, time := now }] }

/-- Modelled from the spec (4.4): chirouter_arp_pending_req_lookup, a
linear scan for the first pending request with the given IP. -/
def chirouter_arp_pending_req_lookup (ctx : Ctx) (ip : Nat) : Option PendingReq :=
  ctx.pending_arp_reqs.find? (fun r => r.ip == ip)

/-- Modelled from the spec (4.4): chirouter_arp_pending_req_add_frame
appends a deep copy of the frame to the withheld list of the first
pending request with the given IP (the one the preceding lookup
returned). -/
def attachFrameToList (l : List PendingReq) (ip : Nat) (f : InFrame) : List PendingReq :=
  match l with
  | [] => []
  | r :: rest =>
    if r.ip = ip then { r with withheld_frames := r.withheld_frames ++ [f] } :: rest
    else r :: attachFrameToList rest ip f

/-- Modelled from the spec (4.4): DL_DELETE of the pending request the
preceding lookup returned (the first with the given IP); its withheld
frames are freed with it. -/
def removePendingReq (l : List PendingReq) (ip : Nat) : List PendingReq :=
  match l with
  | [] => []
  | r :: rest => if r.ip = ip then rest else r :: removePendingReq rest ip

/-- Modelled from the spec (4.6): chirouter_send_arp_message.  A request
is broadcast (Ethernet dst ff:ff:ff:ff:ff:ff, target hardware address
unset) with the egress interface as sender and the next-hop IP as target
protocol address; a reply goes back to the requester with the interface
as sender and the incoming sender as target. -/
def chirouter_send_arp_message (iface : Iface) (tha : Option Nat) (tpa : Nat) (op : Nat) : OutMsg :=
  if op = ARP_OP_REQUEST then
    OutMsg.arp iface
      { ethDst := BROADCAST_MAC, ethSrc := iface.mac, op := ARP_OP_REQUEST,
        sha := iface.mac, spa := iface.ip, tha := 0, tpa := tpa }
  else
    OutMsg.arp iface
      { ethDst := tha.getD 0, ethSrc := iface.mac, op := ARP_OP_REPLY,
        sha := iface.mac, spa := iface.ip, tha := tha.getD 0, tpa := tpa }

/-! ## The frame classifier -/

/-- Run an Option-valued function over a list, collecting the results in
order and propagating failure (the translation of a loop whose body can
hit undefined behaviour). -/
def mapOptionList (g : α → Option β) : List α → Option (List β)
  | [] => some []
  | x :: xs =>
    match g x, mapOptionList g xs with
    | some y, some ys => some (y :: ys)
    | _, _ => none

/-- The body of the withheld-frame drain loop (router.c:483-503): a
withheld frame with TTL 1 produces an ICMP time exceeded message back on
its original ingress interface, any other is forwarded with the resolved
MAC as destination. -/
def drainMsg (ctx : Ctx) (sha : Nat) (w : InFrame) : Option OutMsg :=
  if w.ip.ttl = 1 then chirouter_send_icmp ICMPTYPE_TIME_EXCEEDED 0 w
  else forward_ip_datagram ctx w sha

/-- The whole drain loop over a pending request's withheld frames. -/
def drainOutputs (ctx : Ctx) (sha : Nat) (frames : List InFrame) : Option (List OutMsg) :=
  mapOptionList (drainMsg ctx sha) frames

/-- chirouter_process_ethernet_frame (router.c:309-537), translated branch
by branch.  now is the value time(NULL) would return during the call;
alloc records whether the two fallible arp.c operations succeed.  The
result is none when the call runs into undefined behaviour (a forward
with no routing entry, or an echo reply with negative payload length);
ret = none models control reaching the end of the function without a
return statement (the final else branch of the C function is missing). -/
def chirouter_process_ethernet_frame (alloc : Alloc) (now : Nat) (ctx : Ctx)
    (frame : InFrame) : Option ProcOut :=
  let hdr_type := frame.etherType
  if hdr_type = ETHERTYPE_IP ∨ hdr_type = ETHERTYPE_IPV6 then
    if frame.ip.dst = frame.in_interface.ip then
      if frame.ip.proto = IPPROTO_TCP ∨ frame.ip.proto = IPPROTO_UDP then
        (chirouter_send_icmp ICMPTYPE_DEST_UNREACHABLE ICMPCODE_DEST_PORT_UNREACHABLE frame).map
          (fun m => { ret := some 0, sent := [m], ctx := ctx })
      else if frame.ip.ttl = 1 then
        (chirouter_send_icmp ICMPTYPE_TIME_EXCEEDED 0 frame).map
          (fun m => { ret := some 0, sent := [m], ctx := ctx })
      else if frame.ip.proto = IPPROTO_ICMP then
        if frame.icmpType = ICMPTYPE_ECHO_REQUEST then
          (chirouter_send_icmp ICMPTYPE_ECHO_REPLY 0 frame).map
            (fun m => { ret := some 0, sent := [m], ctx := ctx })
        else
          some { ret := some 0, sent := [], ctx := ctx }
      else
        (chirouter_send_icmp ICMPTYPE_DEST_UNREACHABLE ICMPCODE_DEST_PROTOCOL_UNREACHABLE frame).map
          (fun m => { ret := some 0, sent := [m], ctx := ctx })
    else if chirouter_find_match_router ctx frame then
      (chirouter_send_icmp ICMPTYPE_DEST_UNREACHABLE ICMPCODE_DEST_HOST_UNREACHABLE frame).map
        (fun m => { ret := some 0, sent := [m], ctx := ctx })
    else
      match chirouter_get_matching_entry ctx frame with
      | some forward_entry =>
        let forward_ip := get_forward_ip forward_entry frame.ip.dst
        match chirouter_arp_cache_lookup ctx forward_ip with
        | none =>
          match chirouter_arp_pending_req_lookup ctx forward_ip with
          | none =>
            let arpMsg := chirouter_send_arp_message forward_entry.interface none forward_ip ARP_OP_REQUEST
            if alloc.attach_ok then
              some { ret := some 0, sent := [arpMsg],
                     ctx := { ctx with pending_arp_reqs := ctx.pending_arp_reqs ++
                       [{ ip := forward_ip, interface := forward_entry.interface,
                          times_sent := 1, last_sent := now, withheld_frames := [frame] }] } }
            else
              some { ret := some (-1), sent := [arpMsg],
                     ctx := { ctx with pending_arp_reqs := ctx.pending_arp_reqs ++
                       [{ ip := forward_ip, interface := forward_entry.interface,
                          times_sent := 1, last_sent := now, withheld_frames := [] }] } }
          | some _ =>
            if alloc.attach_ok then
              some { ret := some 0, sent := [],
                     ctx := { ctx with pending_arp_reqs :=
                       attachFrameToList ctx.pending_arp_reqs forward_ip frame } }
            else
              some { ret := some (-1), sent := [], ctx := ctx }
        | some arpcache_entry =>
          if frame.ip.ttl = 1 then
            (chirouter_send_icmp ICMPTYPE_TIME_EXCEEDED 0 frame).map
              (fun m => { ret := some 0, sent := [m], ctx := ctx })
          else
            (forward_ip_datagram ctx frame arpcache_entry.mac).map
              (fun m => { ret := some 0, sent := [m], ctx := ctx })
      | none =>
        (chirouter_send_icmp ICMPTYPE_DEST_UNREACHABLE ICMPCODE_DEST_NET_UNREACHABLE frame).map
          (fun m => { ret := some 0, sent := [m], ctx := ctx })
  else if hdr_type = ETHERTYPE_ARP then
    if frame.arp.tpa = frame.in_interface.ip then
      if frame.arp.op = ARP_OP_REPLY then
        if alloc.cache_add_ok then
          let ctx1 := chirouter_arp_cache_add ctx frame.arp.spa frame.arp.sha now
          match chirouter_arp_pending_req_lookup ctx1 frame.arp.spa with
          | none => some { ret := some 0, sent := [], ctx := ctx1 }
          | some arp_req =>
            let ctx2 :=
              { ctx1 with pending_arp_reqs := removePendingReq ctx1.pending_arp_reqs frame.arp.spa }
            (drainOutputs ctx1 frame.arp.sha arp_req.withheld_frames).map
              (fun msgs => { ret := some 0, sent := msgs, ctx := ctx2 })
        else
          some { ret := some (-1), sent := [], ctx := ctx }
      else if frame.arp.op = ARP_OP_REQUEST then
        some { ret := some 0,
               sent := [chirouter_send_arp_message frame.in_interface (some frame.arp.sha)
                          frame.arp.spa ARP_OP_REPLY],
               ctx := ctx }
      else
        some { ret := some 0, sent := [], ctx := ctx }
    else
      some { ret := some 0, sent := [], ctx := ctx }
  else
    some { ret := none, sent := [], ctx := ctx }

/-! ## Specification-side definitions.

Each definition below restates a claim in the spec's own words, to be
compared with the translated code. -/

/-- The claim's notion of route matching: the entry's dest equals the
destination ANDed with the entry's mask. -/
def rtMatches (dst : Nat) (e : RTableEntry) : Prop := Nat.land dst e.mask = e.dest

instance (dst : Nat) (e : RTableEntry) : Decidable (rtMatches dst e) := by
  unfold rtMatches; infer_instance

/-- The largest mask among the routing entries that match the
destination (0 when none matches). -/
def lpmMaxMask (dst : Nat) : List RTableEntry → Nat
  | [] => 0
  | e :: rest =>
    if Nat.land dst e.mask = e.dest then max e.mask (lpmMaxMask dst rest)
    else lpmMaxMask dst rest

/-- Claim C7 in the spec's words: the first entry, in insertion order,
that matches the destination and whose mask is the largest among all
matching entries; none when no entry matches. -/
def specLpm (dst : Nat) (rt : List RTableEntry) : Option RTableEntry :=
  (rt.filter (fun e => Nat.land dst e.mask == e.dest && e.mask == lpmMaxMask dst rt)).head?

/-- The amended claim C2 in the spec's words: the messages produced for an
IPv4 frame addressed to the ingress interface's IP.  TCP or UDP gives
port unreachable; otherwise TTL 1 gives time exceeded; otherwise an ICMP
echo request gives an echo reply and any other ICMP message gives
nothing; any remaining protocol gives protocol unreachable. -/
def toSelfSpec (frame : InFrame) : Option (List OutMsg) :=
  if frame.ip.proto = IPPROTO_TCP ∨ frame.ip.proto = IPPROTO_UDP then
    (chirouter_send_icmp ICMPTYPE_DEST_UNREACHABLE ICMPCODE_DEST_PORT_UNREACHABLE frame).map (fun m => [m])
  else if frame.ip.ttl = 1 then
    (chirouter_send_icmp ICMPTYPE_TIME_EXCEEDED 0 frame).map (fun m => [m])
  else if frame.ip.proto = IPPROTO_ICMP then
    if frame.icmpType = ICMPTYPE_ECHO_REQUEST then
      (chirouter_send_icmp ICMPTYPE_ECHO_REPLY 0 frame).map (fun m => [m])
    else some []
  else
    (chirouter_send_icmp ICMPTYPE_DEST_UNREACHABLE ICMPCODE_DEST_PROTOCOL_UNREACHABLE frame).map (fun m => [m])

/-! ## Longest-prefix match: the fold in the code computes specLpm -/

lemma lpmMaxMask_bound (dst : Nat) (l : List RTableEntry) :
    ∀ e ∈ l, rtMatches dst e → e.mask ≤ lpmMaxMask dst l := by
  induction l with
  | nil => intro e he; simp at he
  | cons x xs ih =>
    intro e he hm
    unfold lpmMaxMask
    by_cases hx : Nat.land dst x.mask = x.dest
    · rw [if_pos hx]
      rcases List.mem_cons.mp he with rfl | he2
      · exact Nat.le_max_left _ _
      · exact le_trans (ih e he2 hm) (Nat.le_max_right _ _)
    · rw [if_neg hx]
      rcases List.mem_cons.mp he with rfl | he2
      · exact absurd hm hx
      · exact ih e he2 hm

lemma lpmMaxMask_eq_zero (dst : Nat) (l : List RTableEntry)
    (h : ∀ e ∈ l, ¬ rtMatches dst e) : lpmMaxMask dst l = 0 := by
  induction l with
  | nil => rfl
  | cons x xs ih =>
    have hx : ¬ Nat.land dst x.mask = x.dest := h x (List.mem_cons_self x xs)
    unfold lpmMaxMask
    rw [if_neg hx]
    exact ih (fun e he => h e (List.mem_cons_of_mem x he))

lemma lpm_attained (dst : Nat) (l : List RTableEntry)
    (hex : ∃ e ∈ l, rtMatches dst e) :
    ∃ u ∈ l, rtMatches dst u ∧ u.mask = lpmMaxMask dst l := by
  induction l with
  | nil => simp at hex
  | cons x xs ih =>
    by_cases hx : Nat.land dst x.mask = x.dest
    · by_cases hrest : ∃ u ∈ xs, rtMatches dst u
      · obtain ⟨u, hu, hmu, hmask⟩ := ih hrest
        rcases le_total (lpmMaxMask dst xs) x.mask with hle | hle
        · refine ⟨x, List.mem_cons_self x xs, hx, ?_⟩
          unfold lpmMaxMask
          rw [if_pos hx]
          exact (Nat.max_eq_left hle).symm
        · refine ⟨u, List.mem_cons_of_mem x hu, hmu, ?_⟩
          unfold lpmMaxMask
          rw [if_pos hx, hmask]
          exact (Nat.max_eq_right hle).symm
      · push_neg at hrest
        have hM : lpmMaxMask dst xs = 0 := lpmMaxMask_eq_zero dst xs hrest
        refine ⟨x, List.mem_cons_self x xs, hx, ?_⟩
        unfold lpmMaxMask
        rw [if_pos hx, hM]
        simp
    · have hex2 : ∃ u ∈ xs, rtMatches dst u := by
        obtain ⟨e, he, hme⟩ := hex
        rcases List.mem_cons.mp he with rfl | he2
        · exact absurd hme hx
        · exact ⟨e, he2, hme⟩
      obtain ⟨u, hu, hmu, hmask⟩ := ih hex2
      refine ⟨u, List.mem_cons_of_mem x hu, hmu, ?_⟩
      unfold lpmMaxMask
      rw [if_neg hx]
      exact hmask

lemma specLpm_eq_none (dst : Nat) (l : List RTableEntry) :
    specLpm dst l = none ↔ ∀ e ∈ l, ¬ rtMatches dst e := by
  unfold specLpm
  rw [List.head?_eq_none_iff]
  constructor
  · intro hnil e he hme
    obtain ⟨u, hu, hmu, hmask⟩ := lpm_attained dst l ⟨e, he, hme⟩
    have : u ∈ l.filter (fun e => Nat.land dst e.mask == e.dest && e.mask == lpmMaxMask dst l) := by
      apply List.mem_filter.mpr
      refine ⟨hu, ?_⟩
      simp only [Bool.and_eq_true, beq_iff_eq]
      exact ⟨hmu, hmask⟩
    rw [hnil] at this
    simp at this
  · intro h
    apply List.filter_eq_nil_iff.mpr
    intro e he
    simp only [Bool.and_eq_true, beq_iff_eq, not_and]
    intro hme
    exact absurd hme (h e he)

lemma specLpm_eq_some (dst : Nat) (l : List RTableEntry) (r : RTableEntry)
    (h : specLpm dst l = some r) :
    rtMatches dst r ∧ r.mask = lpmMaxMask dst l := by
  unfold specLpm at h
  have hr : r ∈ l.filter (fun e => Nat.land dst e.mask == e.dest && e.mask == lpmMaxMask dst l) := by
    cases hf : l.filter (fun e => Nat.land dst e.mask == e.dest && e.mask == lpmMaxMask dst l) with
    | nil => rw [hf] at h; simp at h
    | cons b t =>
      rw [hf] at h
      simp only [List.head?_cons, Option.some.injEq] at h
      subst h
      exact List.mem_cons_self b t
  have hp := List.of_mem_filter hr
  simp only [Bool.and_eq_true, beq_iff_eq] at hp
  exact hp

lemma lpmMaxMask_cons (dst : Nat) (x : RTableEntry) (xs : List RTableEntry) :
    lpmMaxMask dst (x :: xs) =
      if Nat.land dst x.mask = x.dest then max x.mask (lpmMaxMask dst xs)
      else lpmMaxMask dst xs := rfl

lemma lpmStep_none_match (dst : Nat) (x : RTableEntry)
    (hx : Nat.land dst x.mask = x.dest) : lpmStep dst none x = some x := by
  simp [lpmStep, hx]

lemma lpmStep_some_match (dst : Nat) (a x : RTableEntry)
    (hx : Nat.land dst x.mask = x.dest) :
    lpmStep dst (some a) x = if a.mask < x.mask then some x else some a := by
  simp [lpmStep, hx]

lemma lpmStep_nomatch (dst : Nat) (acc : Option RTableEntry) (x : RTableEntry)
    (hx : ¬ Nat.land dst x.mask = x.dest) : lpmStep dst acc x = acc := by
  simp [lpmStep, hx]

lemma specLpm_cons_of_not (dst : Nat) (x : RTableEntry) (xs : List RTableEntry)
    (hx : ¬ Nat.land dst x.mask = x.dest) :
    specLpm dst (x :: xs) = specLpm dst xs := by
  have hmax : lpmMaxMask dst (x :: xs) = lpmMaxMask dst xs := by
    rw [lpmMaxMask_cons, if_neg hx]
  unfold specLpm
  rw [hmax, List.filter_cons]
  have h1 : (Nat.land dst x.mask == x.dest && x.mask == lpmMaxMask dst xs) = false := by
    simp only [Bool.and_eq_false_iff, beq_eq_false_iff_ne]
    exact Or.inl hx
  rw [h1]
  simp

lemma specLpm_cons_of_ge (dst : Nat) (x : RTableEntry) (xs : List RTableEntry)
    (hx : Nat.land dst x.mask = x.dest) (hge : lpmMaxMask dst xs ≤ x.mask) :
    specLpm dst (x :: xs) = some x := by
  have hmax : lpmMaxMask dst (x :: xs) = x.mask := by
    rw [lpmMaxMask_cons, if_pos hx]
    exact Nat.max_eq_left hge
  unfold specLpm
  rw [hmax, List.filter_cons]
  have h1 : (Nat.land dst x.mask == x.dest && x.mask == x.mask) = true := by
    simp only [Bool.and_eq_true, beq_iff_eq]
    exact ⟨hx, trivial⟩
  rw [h1]
  simp

lemma specLpm_cons_of_lt (dst : Nat) (x : RTableEntry) (xs : List RTableEntry)
    (hx : Nat.land dst x.mask = x.dest) (hlt : x.mask < lpmMaxMask dst xs) :
    specLpm dst (x :: xs) = specLpm dst xs := by
  have hmax : lpmMaxMask dst (x :: xs) = lpmMaxMask dst xs := by
    rw [lpmMaxMask_cons, if_pos hx]
    exact Nat.max_eq_right (le_of_lt hlt)
  unfold specLpm
  rw [hmax, List.filter_cons]
  have h1 : (Nat.land dst x.mask == x.dest && x.mask == lpmMaxMask dst xs) = false := by
    simp only [Bool.and_eq_false_iff, beq_eq_false_iff_ne]
    exact Or.inr (Nat.ne_of_lt hlt)
  rw [h1]
  simp

/-- How the LPM fold combines an accumulator with the best entry of the
remaining list: the later entry wins only with a strictly larger mask. -/
def lpmMerge (acc s : Option RTableEntry) : Option RTableEntry :=
  match acc, s with
  | none, s => s
  | some a, none => some a
  | some a, some r => if a.mask < r.mask then some r else some a

lemma foldl_lpmStep_eq (dst : Nat) (l : List RTableEntry) :
    ∀ acc : Option RTableEntry, l.foldl (lpmStep dst) acc = lpmMerge acc (specLpm dst l) := by
  induction l with
  | nil =>
    intro acc
    cases acc <;> simp [specLpm, lpmMerge]
  | cons x xs ih =>
    intro acc
    rw [List.foldl_cons, ih]
    by_cases hx : Nat.land dst x.mask = x.dest
    · rcases hs : specLpm dst xs with _ | r
      · have hnone : ∀ e ∈ xs, ¬ rtMatches dst e := (specLpm_eq_none dst xs).mp hs
        have hM : lpmMaxMask dst xs = 0 := lpmMaxMask_eq_zero dst xs hnone
        rw [specLpm_cons_of_ge dst x xs hx (by rw [hM]; exact Nat.zero_le _)]
        cases acc with
        | none => rw [lpmStep_none_match dst x hx]; rfl
        | some a =>
          rw [lpmStep_some_match dst a x hx]
          by_cases hc : a.mask < x.mask
          · rw [if_pos hc]
            simp [lpmMerge, hc]
          · rw [if_neg hc]
            simp [lpmMerge, hc]
      · obtain ⟨hmr, hmaskr⟩ := specLpm_eq_some dst xs r hs
        rcases le_or_lt (lpmMaxMask dst xs) x.mask with hge | hlt
        · rw [specLpm_cons_of_ge dst x xs hx hge]
          have hrx : ¬ x.mask < r.mask := by rw [hmaskr]; omega
          cases acc with
          | none =>
            rw [lpmStep_none_match dst x hx]
            simp [lpmMerge, hrx]
          | some a =>
            rw [lpmStep_some_match dst a x hx]
            by_cases hc : a.mask < x.mask
            · rw [if_pos hc]
              simp [lpmMerge, hrx, hc]
            · rw [if_neg hc]
              have har : ¬ a.mask < r.mask := by
                rw [hmaskr]
                rw [hmaskr] at hrx
                omega
              simp [lpmMerge, har, hc]
        · rw [specLpm_cons_of_lt dst x xs hx hlt, hs]
          have hxr : x.mask < r.mask := by rw [hmaskr]; exact hlt
          cases acc with
          | none =>
            rw [lpmStep_none_match dst x hx]
            simp [lpmMerge, hxr]
          | some a =>
            rw [lpmStep_some_match dst a x hx]
            by_cases hc : a.mask < x.mask
            · rw [if_pos hc]
              have hca : a.mask < r.mask := lt_trans hc hxr
              simp [lpmMerge, hxr, hca]
            · rw [if_neg hc]
    · rw [specLpm_cons_of_not dst x xs hx, lpmStep_nomatch dst acc x hx]

/-- Claim C7: for every destination IP, route lookup returns the
routing-table entry whose dest equals the destination ANDed with the
entry's mask and whose mask is the largest among all matching entries,
or none when no entry matches; when two matching entries have equal
masks the first in insertion order is returned.  Stated as a refinement:
the code's fold equals specLpm, the claim written out as a filter for
matching entries of maximal mask followed by first-in-order selection. -/
theorem c7_route_lpm (ctx : Ctx) (frame : InFrame) :
    chirouter_get_matching_entry ctx frame = specLpm frame.ip.dst ctx.routing_table := by
  unfold chirouter_get_matching_entry
  rw [foldl_lpmStep_eq]
  cases specLpm frame.ip.dst ctx.routing_table <;> rfl

/-! ## Helper lemmas about the modelled ARP state operations -/

lemma mapOptionList_length (g : α → Option β) (l : List α) (ys : List β)
    (h : mapOptionList g l = some ys) : ys.length = l.length := by
  induction l generalizing ys with
  | nil =>
    simp only [mapOptionList, Option.some.injEq] at h
    subst h
    rfl
  | cons x xs ih =>
    unfold mapOptionList at h
    cases hg : g x with
    | none => rw [hg] at h; simp at h
    | some y =>
      rw [hg] at h
      cases hm : mapOptionList g xs with
      | none => rw [hm] at h; simp at h
      | some ys0 =>
        rw [hm] at h
        simp only [Option.some.injEq] at h
        subst h
        simp [ih ys0 hm]

lemma find?_refresh (l : List ArpCacheEntry) (ip mac now : Nat)
    (h : l.any (fun e => e.ip == ip) = true) :
    (l.map (fun e => if e.ip == ip then { e with mac := mac, time := now } else e)).find?
      (fun e => e.ip == ip) = some { ip := ip, mac := mac, time := now } := by
  induction l with
  | nil => simp at h
  | cons x xs ih =>
    rw [List.map_cons]
    by_cases hx : x.ip = ip
    · have hb : (x.ip == ip) = true := beq_iff_eq.mpr hx
      rw [if_pos hb]
      simp [List.find?_cons, hb, hx]
    · have hb : (x.ip == ip) = false := by
        simp only [beq_eq_false_iff_ne]
        exact hx
      rw [if_neg (by simp [hb])]
      have h2 : xs.any (fun e => e.ip == ip) = true := by
        simp only [List.any_cons, Bool.or_eq_true, hb] at h
        simpa using h
      rw [List.find?_cons]
      simp only [hb]
      exact ih h2

lemma find?_append_singleton (l : List α) (x : α) (p : α → Bool)
    (h : l.find? p = none) (hx : p x = true) : (l ++ [x]).find? p = some x := by
  induction l with
  | nil => simp [List.find?_cons, hx]
  | cons a as ih =>
    cases hp : p a with
    | true => rw [List.find?_cons_of_pos _ hp] at h; simp at h
    | false =>
      rw [List.find?_cons_of_neg _ (by simp [hp])] at h
      rw [List.cons_append, List.find?_cons_of_neg _ (by simp [hp])]
      exact ih h

lemma arp_cache_lookup_add (ctx : Ctx) (ip mac now : Nat) :
    chirouter_arp_cache_lookup (chirouter_arp_cache_add ctx ip mac now) ip =
      some { ip := ip, mac := mac, time := now } := by
  unfold chirouter_arp_cache_lookup chirouter_arp_cache_add
  by_cases h : ctx.arp_cache.any (fun e => e.ip == ip)
  · rw [if_pos h]
    exact find?_refresh ctx.arp_cache ip mac now h
  · rw [if_neg h]
    have hnone : ctx.arp_cache.find? (fun e => e.ip == ip) = none := by
      rw [List.find?_eq_none]
      intro e he
      intro hbe
      exact h (List.any_eq_true.mpr ⟨e, he, hbe⟩)
    exact find?_append_singleton ctx.arp_cache _ _ hnone (by simp)

lemma pending_lookup_attach (l : List PendingReq) (ip : Nat) (f : InFrame) (pr : PendingReq)
    (h : l.find? (fun r => r.ip == ip) = some pr) :
    (attachFrameToList l ip f).find? (fun r => r.ip == ip) =
      some { pr with withheld_frames := pr.withheld_frames ++ [f] } := by
  induction l with
  | nil => simp at h
  | cons x xs ih =>
    by_cases hx : x.ip = ip
    · have hb : (x.ip == ip) = true := beq_iff_eq.mpr hx
      rw [List.find?_cons] at h
      simp only [hb, Option.some.injEq] at h
      subst h
      unfold attachFrameToList
      rw [if_pos hx]
      rw [List.find?_cons]
      simp [hb]
    · have hb : (x.ip == ip) = false := by
        simp only [beq_eq_false_iff_ne]
        exact hx
      rw [List.find?_cons] at h
      simp only [hb] at h
      unfold attachFrameToList
      rw [if_neg hx]
      rw [List.find?_cons]
      simp only [hb]
      exact ih h

/-! ## Concrete data for witnesses and counterexamples (the literal values
of the end-to-end scenarios in spec section 8: interface eth0 with IP
10.0.0.1 and MAC 02:00:00:00:00:01, a default route via gateway
10.0.0.254 on eth0). -/

def eth0 : Iface := { mac := 0x020000000001, ip := 0x0A000001 }

def entry0 : RTableEntry := { dest := 0, mask := 0, gw := 0x0A0000FE, interface := eth0 }

def rt0 : List RTableEntry := [entry0]

def arpNone : ArpView := { op := 0, sha := 0, spa := 0, tha := 0, tpa := 0 }

def ipEcho : IpHdr :=
  { ihl := 5, version := 4, tos := 0, len := 32, id := 7, off := 0, ttl := 64,
    proto := 1, cksum := 0x1234, src := 0x0A000002, dst := 0x0A000001 }

/-- Scenario 1 of spec section 8: an ICMP echo request to 10.0.0.1,
identifier 1, sequence 2, payload "abcd", arriving on eth0. -/
def fEcho : InFrame :=
  { length := 46, in_interface := eth0, ethDst := 0x020000000001,
    ethSrc := 0x02AA00000001, etherType := 0x0800, ip := ipEcho,
    icmpType := 8, icmpCode := 0, icmpIdent := 1, icmpSeq := 2,
    icmpPayload := [97, 98, 99, 100],
    ipPayloadBytes := [8, 0, 0, 0, 0, 1, 0, 2, 97, 98, 99, 100],
    arp := arpNone }

def ctxA : Ctx :=
  { interfaces := [eth0], routing_table := rt0, arp_cache := [], pending_arp_reqs := [] }

def allocOK : Alloc := { cache_add_ok := true, attach_ok := true }

def allocNoAttach : Alloc := { cache_add_ok := true, attach_ok := false }

def allocNoCache : Alloc := { cache_add_ok := false, attach_ok := true }

/-- The echo request reinterpreted with inner ICMP type 0 (an echo reply
sent to the router), everything else unchanged. -/
def fEchoReplyIn : InFrame := { fEcho with icmpType := 0 }

/-- A frame with an ethertype that is neither IPv4, IPv6 nor ARP. -/
def fOther : InFrame := { fEcho with etherType := 0x1234 }

def ipFwd : IpHdr := { ipEcho with dst := 0xC6336405, proto := 17 }

/-- Scenario 3 of spec section 8: a UDP datagram from 10.0.0.2 to
198.51.100.5, TTL 64, arriving on eth0. -/
def fFwd : InFrame := { fEcho with ip := ipFwd }

/-- The same datagram arriving with TTL 1. -/
def fFwdTtl1 : InFrame := { fFwd with ip := { ipFwd with ttl := 1 } }

def cacheEntry0 : ArpCacheEntry := { ip := 0x0A0000FE, mac := 0x02BB00000001, time := 50 }

def ctxHit : Ctx := { ctxA with arp_cache := [cacheEntry0] }

/-- Scenario 5 of spec section 8: an ARP reply resolving the gateway
10.0.0.254 to 02:BB:00:00:00:01, addressed to eth0. -/
def arpReplyView : ArpView :=
  { op := 2, sha := 0x02BB00000001, spa := 0x0A0000FE,
    tha := 0x020000000001, tpa := 0x0A000001 }

def fArpReply : InFrame :=
  { fEcho with etherType := 0x0806, arp := arpReplyView }

def pend0 : PendingReq :=
  { ip := 0x0A0000FE, interface := eth0, times_sent := 1, last_sent := 99,
    withheld_frames := [fFwd, fFwdTtl1] }

def ctxPend : Ctx := { ctxA with pending_arp_reqs := [pend0] }

/-! ## Claim theorems -/

/-- Claim C9: every ICMP message the router generates is sent on the
interface the trigger frame arrived on, with destination MAC equal to
the trigger frame's source MAC, source MAC equal to the ingress
interface's MAC, source IP equal to the ingress interface's IP,
destination IP equal to the trigger frame's source IP, TTL 64,
protocol 1, version 4, ihl 5, id 0, off 0, tos 0, and both the IP header
checksum and the ICMP checksum recomputed over the newly built message
(chirouter_send_icmp is the only ICMP generator in router.c). -/
theorem c9_icmp_fields (t c : Nat) (frame : InFrame) :
    (chirouter_send_icmp t c frame = none ∨
      chirouter_send_icmp t c frame =
        some (OutMsg.icmp frame.in_interface (buildIcmp t c frame)))
    ∧ (buildIcmp t c frame).ethDst = frame.ethSrc
    ∧ (buildIcmp t c frame).ethSrc = frame.in_interface.mac
    ∧ (buildIcmp t c frame).ip.src = frame.in_interface.ip
    ∧ (buildIcmp t c frame).ip.dst = frame.ip.src
    ∧ (buildIcmp t c frame).ip.ttl = 64
    ∧ (buildIcmp t c frame).ip.proto = 1
    ∧ (buildIcmp t c frame).ip.version = 4
    ∧ (buildIcmp t c frame).ip.ihl = 5
    ∧ (buildIcmp t c frame).ip.id = 0
    ∧ (buildIcmp t c frame).ip.off = 0
    ∧ (buildIcmp t c frame).ip.tos = 0
    ∧ (buildIcmp t c frame).ip.cksum =
        cksum (ipHdrBytes { (buildIcmp t c frame).ip with cksum := 0 })
    ∧ (buildIcmp t c frame).icmpCksum =
        cksum (icmpBytes { buildIcmp t c frame with icmpCksum := 0 }) := by
  refine ⟨?_, rfl, rfl, rfl, rfl, rfl, rfl, rfl, rfl, rfl, rfl, rfl, rfl, rfl⟩
  unfold chirouter_send_icmp
  by_cases h : payloadLenOf t frame < 0
  · exact Or.inl (if_pos h)
  · exact Or.inr (if_neg h)

/-- Claim C4 (code bug): a frame whose ethertype is neither IPv4, IPv6
nor ARP is ignored: nothing is sent and the router state is unchanged —
but control reaches the end of the non-void C function without any
return statement, so the claimed return value 0 is never produced; the
returned status is undefined (modelled as ret = none). -/
theorem c4_other_ethertype :
    chirouter_process_ethernet_frame allocOK 100 ctxA fOther =
      some { ret := none, sent := [], ctx := ctxA } := by
  rfl

/-- Claim C2 counterexample: an ICMP message addressed to the ingress
interface's IP whose inner type is not echo request (here an echo reply,
type 0) with TTL 64 produces no response at all, while the claim says it
gets an ICMP destination unreachable with code protocol unreachable. -/
theorem c2_counterexample :
    chirouter_process_ethernet_frame allocOK 100 ctxA fEchoReplyIn =
      some { ret := some 0, sent := [], ctx := ctxA } := by
  rfl

/-- Claim C1 counterexample: a forwardable UDP datagram misses the empty
ARP cache, and the deep copy of the withheld frame fails to allocate;
chirouter_process_ethernet_frame returns -1 (fatal_error), not the
claimed 1 (noncritical_error). -/
theorem c1_counterexample :
    (chirouter_process_ethernet_frame allocNoAttach 100 ctxA fFwd).map ProcOut.ret =
      some (some (-1)) ∧ (some (-1) : Option Int) ≠ some 1 := by
  exact ⟨rfl, by decide⟩

/-- Claim C2 (amended): for every IPv4 frame addressed to the ingress
interface's IP: if the IP protocol is TCP or UDP the router sends ICMP
destination unreachable with code port unreachable; otherwise if ttl is 1
it sends ICMP time exceeded; otherwise if the protocol is ICMP and the
inner type is echo request it sends an ICMP echo reply, while an ICMP
message that is not an echo request gets no response at all; any other
protocol gets ICMP destination unreachable with code protocol
unreachable.  Stated as a refinement against toSelfSpec, the amended
dispatch written in the spec's words. -/
theorem c2_to_self_dispatch (a : Alloc) (now : Nat) (ctx : Ctx) (frame : InFrame)
    (hty : frame.etherType = ETHERTYPE_IP)
    (hdst : frame.ip.dst = frame.in_interface.ip) :
    chirouter_process_ethernet_frame a now ctx frame =
      (toSelfSpec frame).map (fun msgs => { ret := some 0, sent := msgs, ctx := ctx }) := by
  simp only [chirouter_process_ethernet_frame, toSelfSpec]
  rw [hty]
  rw [if_pos (Or.inl rfl), if_pos hdst]
  by_cases h1 : frame.ip.proto = IPPROTO_TCP ∨ frame.ip.proto = IPPROTO_UDP
  · rw [if_pos h1, if_pos h1]
    cases chirouter_send_icmp ICMPTYPE_DEST_UNREACHABLE ICMPCODE_DEST_PORT_UNREACHABLE frame <;> rfl
  · rw [if_neg h1, if_neg h1]
    by_cases h2 : frame.ip.ttl = 1
    · rw [if_pos h2, if_pos h2]
      cases chirouter_send_icmp ICMPTYPE_TIME_EXCEEDED 0 frame <;> rfl
    · rw [if_neg h2, if_neg h2]
      by_cases h3 : frame.ip.proto = IPPROTO_ICMP
      · rw [if_pos h3, if_pos h3]
        by_cases h4 : frame.icmpType = ICMPTYPE_ECHO_REQUEST
        · rw [if_pos h4, if_pos h4]
          cases chirouter_send_icmp ICMPTYPE_ECHO_REPLY 0 frame <;> rfl
        · rw [if_neg h4, if_neg h4]
          rfl
      · rw [if_neg h3, if_neg h3]
        cases chirouter_send_icmp ICMPTYPE_DEST_UNREACHABLE ICMPCODE_DEST_PROTOCOL_UNREACHABLE frame <;> rfl

/-- Witness for the amended claim C2: the echo-to-self scenario of spec
section 8 follows the amended dispatch. -/
theorem c2_witness :
    chirouter_process_ethernet_frame allocOK 100 ctxA fEcho =
      (toSelfSpec fEcho).map (fun msgs => { ret := some 0, sent := msgs, ctx := ctxA }) :=
  c2_to_self_dispatch allocOK 100 ctxA fEcho rfl rfl

/-- Claim C1 (amended): an allocation failure while deep-copying a
withheld frame (attaching it to a pending ARP request) or while enlarging
the ARP cache makes chirouter_process_ethernet_frame return fatal_error
(-1), not noncritical_error (1): the router shuts down. -/
theorem c1_alloc_failure_fatal (a : Alloc) (now : Nat) (ctx : Ctx) (frame : InFrame)
    (h :
      ((frame.etherType = ETHERTYPE_IP ∨ frame.etherType = ETHERTYPE_IPV6)
        ∧ frame.ip.dst ≠ frame.in_interface.ip
        ∧ chirouter_find_match_router ctx frame = false
        ∧ (∃ e, chirouter_get_matching_entry ctx frame = some e
            ∧ chirouter_arp_cache_lookup ctx (get_forward_ip e frame.ip.dst) = none)
        ∧ a.attach_ok = false)
      ∨ (frame.etherType = ETHERTYPE_ARP
        ∧ frame.arp.tpa = frame.in_interface.ip
        ∧ frame.arp.op = ARP_OP_REPLY
        ∧ a.cache_add_ok = false)) :
    (chirouter_process_ethernet_frame a now ctx frame).map ProcOut.ret =
      some (some (-1)) := by
  rcases h with ⟨hty, hne, hfind, ⟨e, he, hmiss⟩, hal⟩ | ⟨hty, htpa, hop, hal⟩
  · simp only [chirouter_process_ethernet_frame]
    rw [if_pos hty, if_neg hne, hfind]
    rw [if_neg (by simp : ¬ false = true)]
    rw [he]
    simp only []
    rw [hmiss]
    cases hp : chirouter_arp_pending_req_lookup ctx (get_forward_ip e frame.ip.dst) with
    | none =>
      rw [hal]
      rfl
    | some pr =>
      rw [hal]
      rfl
  · simp only [chirouter_process_ethernet_frame]
    rw [hty]
    rw [if_neg (by decide : ¬ (ETHERTYPE_ARP = ETHERTYPE_IP ∨ ETHERTYPE_ARP = ETHERTYPE_IPV6))]
    rw [if_pos (rfl : ETHERTYPE_ARP = ETHERTYPE_ARP)]
    rw [if_pos htpa, if_pos hop, hal]
    rfl

/-- Witness for the amended claim C1: an ARP reply whose cache insertion
fails to allocate makes the call return -1. -/
theorem c1_witness :
    (chirouter_process_ethernet_frame allocNoCache 100 ctxA fArpReply).map ProcOut.ret =
      some (some (-1)) :=
  c1_alloc_failure_fatal allocNoCache 100 ctxA fArpReply (Or.inr ⟨rfl, rfl, rfl, rfl⟩)

/-- Claim C8: an ICMP echo reply generated for an echo request addressed
to the ingress interface's IP carries the original ICMP identifier,
sequence number and opaque payload unchanged, and its IP total-length
field equals the original frame's length minus the Ethernet header size.
The well-formedness hypotheses say the echo request's length fields are
consistent: ip.len is 28 plus the opaque payload's length (20-byte IP
header, 8-byte ICMP header), and the frame length minus 14 fits the
16-bit total-length field. -/
theorem c8_echo_reply_preserved (a : Alloc) (now : Nat) (ctx : Ctx) (frame : InFrame)
    (hty : frame.etherType = ETHERTYPE_IP)
    (hdst : frame.ip.dst = frame.in_interface.ip)
    (hproto : frame.ip.proto = IPPROTO_ICMP)
    (httl : frame.ip.ttl ≠ 1)
    (hreq : frame.icmpType = ICMPTYPE_ECHO_REQUEST)
    (hlen : frame.ip.len = 28 + frame.icmpPayload.length)
    (hsz : frame.length - 14 < 65536) :
    chirouter_process_ethernet_frame a now ctx frame =
      some { ret := some 0,
             sent := [OutMsg.icmp frame.in_interface (buildIcmp ICMPTYPE_ECHO_REPLY 0 frame)],
             ctx := ctx }
    ∧ (buildIcmp ICMPTYPE_ECHO_REPLY 0 frame).icmpIdent = frame.icmpIdent
    ∧ (buildIcmp ICMPTYPE_ECHO_REPLY 0 frame).icmpSeq = frame.icmpSeq
    ∧ (buildIcmp ICMPTYPE_ECHO_REPLY 0 frame).icmpPayload = frame.icmpPayload
    ∧ (buildIcmp ICMPTYPE_ECHO_REPLY 0 frame).ip.len = frame.length - 14 := by
  have hpl : (payloadLenOf ICMPTYPE_ECHO_REPLY frame).toNat = frame.icmpPayload.length := by
    simp only [payloadLenOf, ICMPTYPE_ECHO_REPLY, ICMPTYPE_ECHO_REQUEST, ICMP_HDR_SIZE]
    norm_num
    omega
  have hnn : ¬ payloadLenOf ICMPTYPE_ECHO_REPLY frame < 0 := by
    simp only [payloadLenOf, ICMPTYPE_ECHO_REPLY, ICMPTYPE_ECHO_REQUEST, ICMP_HDR_SIZE]
    norm_num
    omega
  have hsend : chirouter_send_icmp ICMPTYPE_ECHO_REPLY 0 frame =
      some (OutMsg.icmp frame.in_interface (buildIcmp ICMPTYPE_ECHO_REPLY 0 frame)) := by
    unfold chirouter_send_icmp
    rw [if_neg hnn]
  refine ⟨?_, rfl, rfl, ?_, ?_⟩
  · simp only [chirouter_process_ethernet_frame]
    rw [hty, if_pos (Or.inl rfl), if_pos hdst]
    rw [if_neg (by rw [hproto]; decide :
      ¬ (frame.ip.proto = IPPROTO_TCP ∨ frame.ip.proto = IPPROTO_UDP))]
    rw [if_neg httl, if_pos hproto, if_pos hreq, hsend]
    rfl
  · show frame.icmpPayload.take (payloadLenOf ICMPTYPE_ECHO_REPLY frame).toNat = frame.icmpPayload
    rw [hpl]
    exact List.take_length frame.icmpPayload
  · show (if (ICMPTYPE_ECHO_REPLY = ICMPTYPE_ECHO_REPLY ∨ ICMPTYPE_ECHO_REPLY = ICMPTYPE_ECHO_REQUEST)
        then (frame.length - 14) % 65536
        else (20 + ICMP_HDR_SIZE + (payloadLenOf ICMPTYPE_ECHO_REPLY frame).toNat) % 65536)
        = frame.length - 14
    rw [if_pos (Or.inl rfl)]
    exact Nat.mod_eq_of_lt hsz

/-- Witness for claim C8: the echo-to-self scenario of spec section 8
(identifier 1, sequence 2, payload "abcd"). -/
theorem c8_witness :
    chirouter_process_ethernet_frame allocOK 100 ctxA fEcho =
      some { ret := some 0,
             sent := [OutMsg.icmp fEcho.in_interface (buildIcmp ICMPTYPE_ECHO_REPLY 0 fEcho)],
             ctx := ctxA }
    ∧ (buildIcmp ICMPTYPE_ECHO_REPLY 0 fEcho).icmpIdent = fEcho.icmpIdent
    ∧ (buildIcmp ICMPTYPE_ECHO_REPLY 0 fEcho).icmpSeq = fEcho.icmpSeq
    ∧ (buildIcmp ICMPTYPE_ECHO_REPLY 0 fEcho).icmpPayload = fEcho.icmpPayload
    ∧ (buildIcmp ICMPTYPE_ECHO_REPLY 0 fEcho).ip.len = fEcho.length - 14 :=
  c8_echo_reply_preserved allocOK 100 ctxA fEcho rfl rfl rfl (by decide) rfl (by decide) (by decide)

lemma send_icmp_time_exceeded (frame : InFrame) :
    chirouter_send_icmp ICMPTYPE_TIME_EXCEEDED 0 frame =
      some (OutMsg.icmp frame.in_interface (buildIcmp ICMPTYPE_TIME_EXCEEDED 0 frame)) := by
  unfold chirouter_send_icmp
  rw [if_neg (by norm_num [payloadLenOf, ICMPTYPE_TIME_EXCEEDED, ICMPTYPE_ECHO_REPLY,
    ICMPTYPE_ECHO_REQUEST] : ¬ payloadLenOf ICMPTYPE_TIME_EXCEEDED frame < 0)]

/-- Claim C3: for every forwarded IP datagram the output frame's TTL
equals the input frame's TTL minus one (the uint8 decrement, stated for
TTL between 1 and 255) and the IPv4 header checksum is recomputed over
the new header with its checksum field zeroed; a frame arriving with
TTL 1 is never forwarded: on an ARP cache hit the call produces exactly
one ICMP time exceeded message, and the drain loop body run after an ARP
reply turns a TTL-1 withheld frame into ICMP time exceeded on its
original ingress interface and forwards any other withheld frame. -/
theorem c3_ttl_decrement :
    (∀ (rentry : RTableEntry) (frame : InFrame) (dst_mac : Nat),
      1 ≤ frame.ip.ttl → frame.ip.ttl ≤ 255 →
      (buildFwd rentry frame dst_mac).ip.ttl = frame.ip.ttl - 1
      ∧ (buildFwd rentry frame dst_mac).ip.cksum =
          cksum (ipHdrBytes { (buildFwd rentry frame dst_mac).ip with cksum := 0 }))
    ∧ (∀ (a : Alloc) (now : Nat) (ctx : Ctx) (frame : InFrame)
        (e : RTableEntry) (ce : ArpCacheEntry),
      frame.etherType = ETHERTYPE_IP →
      frame.ip.dst ≠ frame.in_interface.ip →
      chirouter_find_match_router ctx frame = false →
      chirouter_get_matching_entry ctx frame = some e →
      chirouter_arp_cache_lookup ctx (get_forward_ip e frame.ip.dst) = some ce →
      frame.ip.ttl = 1 →
      chirouter_process_ethernet_frame a now ctx frame =
        some { ret := some 0,
               sent := [OutMsg.icmp frame.in_interface (buildIcmp ICMPTYPE_TIME_EXCEEDED 0 frame)],
               ctx := ctx })
    ∧ (∀ (ctx : Ctx) (sha : Nat) (w : InFrame), w.ip.ttl = 1 →
        drainMsg ctx sha w =
          some (OutMsg.icmp w.in_interface (buildIcmp ICMPTYPE_TIME_EXCEEDED 0 w)))
    ∧ (∀ (ctx : Ctx) (sha : Nat) (w : InFrame), w.ip.ttl ≠ 1 →
        drainMsg ctx sha w = forward_ip_datagram ctx w sha) := by
  refine ⟨?_, ?_, ?_, ?_⟩
  · intro rentry frame dst_mac h1 h2
    constructor
    · show (frame.ip.ttl + 255) % 256 = frame.ip.ttl - 1
      omega
    · rfl
  · intro a now ctx frame e ce hty hne hfind hroute hhit httl
    simp only [chirouter_process_ethernet_frame]
    rw [hty, if_pos (Or.inl rfl), if_neg hne, hfind]
    rw [if_neg (by simp : ¬ false = true)]
    rw [hroute]
    simp only []
    rw [hhit]
    simp only []
    rw [if_pos httl, send_icmp_time_exceeded]
    rfl
  · intro ctx sha w httl
    unfold drainMsg
    rw [if_pos httl, send_icmp_time_exceeded]
  · intro ctx sha w httl
    unfold drainMsg
    rw [if_neg httl]

/-- Witness for claim C3: the forward-hit scenario of spec section 8 with
TTL 64, the same datagram arriving with TTL 1 on a cache hit, and the two
shapes of the drain loop body. -/
theorem c3_witness :
    ((buildFwd entry0 fFwd 0x02BB00000001).ip.ttl = fFwd.ip.ttl - 1
      ∧ (buildFwd entry0 fFwd 0x02BB00000001).ip.cksum =
          cksum (ipHdrBytes { (buildFwd entry0 fFwd 0x02BB00000001).ip with cksum := 0 }))
    ∧ chirouter_process_ethernet_frame allocOK 100 ctxHit fFwdTtl1 =
        some { ret := some 0,
               sent := [OutMsg.icmp fFwdTtl1.in_interface
                 (buildIcmp ICMPTYPE_TIME_EXCEEDED 0 fFwdTtl1)],
               ctx := ctxHit }
    ∧ drainMsg ctxHit 0x02BB00000001 fFwdTtl1 =
        some (OutMsg.icmp fFwdTtl1.in_interface (buildIcmp ICMPTYPE_TIME_EXCEEDED 0 fFwdTtl1))
    ∧ drainMsg ctxHit 0x02BB00000001 fFwd = forward_ip_datagram ctxHit fFwd 0x02BB00000001 :=
  ⟨c3_ttl_decrement.1 entry0 fFwd 0x02BB00000001 (by decide) (by decide),
   c3_ttl_decrement.2.1 allocOK 100 ctxHit fFwdTtl1 entry0 cacheEntry0 rfl (by decide) rfl rfl rfl rfl,
   c3_ttl_decrement.2.2.1 ctxHit 0x02BB00000001 fFwdTtl1 rfl,
   c3_ttl_decrement.2.2.2 ctxHit 0x02BB00000001 fFwd (by decide)⟩

/-- What claim C6 says the classifier sends on a cache miss: exactly one
ARP request on the route's egress interface when no pending request
exists, nothing when one does. -/
def c6Sent (e : RTableEntry) (fip : Nat) (ppr : Option PendingReq) : List OutMsg :=
  match ppr with
  | none => [chirouter_send_arp_message e.interface none fip ARP_OP_REQUEST]
  | some _ => []

/-- What claim C6 says the pending list becomes on a cache miss: a fresh
entry with times_sent 1, last_sent now and the deep-copied frame when no
pending request exists, otherwise the frame appended to the existing
entry. -/
def c6Pending (l : List PendingReq) (fip : Nat) (e : RTableEntry) (now : Nat)
    (frame : InFrame) (ppr : Option PendingReq) : List PendingReq :=
  match ppr with
  | none => l ++ [{ ip := fip, interface := e.interface, times_sent := 1,
                    last_sent := now, withheld_frames := [frame] }]
  | some _ => attachFrameToList l fip frame

/-- In the pending case of claim C6, looking the entry up afterwards
shows the frame appended to its withheld list. -/
def c6AttachCase (ctx : Ctx) (fip : Nat) (frame : InFrame) (ppr : Option PendingReq) : Prop :=
  match ppr with
  | none => True
  | some pr =>
    chirouter_arp_pending_req_lookup
        { ctx with pending_arp_reqs := attachFrameToList ctx.pending_arp_reqs fip frame } fip =
      some { pr with withheld_frames := pr.withheld_frames ++ [frame] }

/-- Claim C6: on an ARP cache miss for the next-hop IP (the route's
gateway if nonzero, else the datagram's destination): when no pending
request for that IP exists, the classifier transmits exactly one ARP
request broadcast on the route's egress interface, creates a pending
entry with times_sent 1 and last_sent now, and attaches a deep copy of
the frame; when a pending request already exists it attaches a deep copy
of the frame only and transmits nothing.  The second conjunct spells out
the broadcast content of the ARP request, the third that in the pending
case the looked-up entry afterwards carries the frame appended. -/
theorem c6_arp_miss_single_request (a : Alloc) (now : Nat) (ctx : Ctx) (frame : InFrame)
    (e : RTableEntry) (ppr : Option PendingReq)
    (hty : frame.etherType = ETHERTYPE_IP)
    (hne : frame.ip.dst ≠ frame.in_interface.ip)
    (hfind : chirouter_find_match_router ctx frame = false)
    (hroute : chirouter_get_matching_entry ctx frame = some e)
    (hmiss : chirouter_arp_cache_lookup ctx (get_forward_ip e frame.ip.dst) = none)
    (hpend : chirouter_arp_pending_req_lookup ctx (get_forward_ip e frame.ip.dst) = ppr)
    (hok : a.attach_ok = true) :
    (chirouter_process_ethernet_frame a now ctx frame =
      some { ret := some 0,
             sent := c6Sent e (get_forward_ip e frame.ip.dst) ppr,
             ctx := { ctx with pending_arp_reqs := c6Pending ctx.pending_arp_reqs (get_forward_ip e frame.ip.dst) e now frame ppr } })
    ∧ chirouter_send_arp_message e.interface none (get_forward_ip e frame.ip.dst) ARP_OP_REQUEST =
        OutMsg.arp e.interface
          { ethDst := BROADCAST_MAC, ethSrc := e.interface.mac, op := ARP_OP_REQUEST,
            sha := e.interface.mac, spa := e.interface.ip, tha := 0,
            tpa := get_forward_ip e frame.ip.dst }
    ∧ c6AttachCase ctx (get_forward_ip e frame.ip.dst) frame ppr := by
  refine ⟨?_, rfl, ?_⟩
  · simp only [chirouter_process_ethernet_frame]
    rw [hty, if_pos (Or.inl rfl), if_neg hne, hfind]
    rw [if_neg (by simp : ¬ false = true)]
    rw [hroute]
    simp only []
    rw [hmiss]
    simp only []
    cases ppr with
    | none =>
      rw [hpend]
      simp only [c6Sent, c6Pending]
      rw [hok]
      rfl
    | some pr =>
      rw [hpend]
      simp only [c6Sent, c6Pending]
      rw [hok]
      rfl
  · cases ppr with
    | none => trivial
    | some pr =>
      show chirouter_arp_pending_req_lookup _ _ = _
      exact pending_lookup_attach ctx.pending_arp_reqs (get_forward_ip e frame.ip.dst) frame pr hpend

/-- Witness for claim C6: the forward-miss scenario of spec section 8 on
an empty pending list creates the pending entry and broadcasts one ARP
request for the gateway. -/
theorem c6_witness :
    chirouter_process_ethernet_frame allocOK 100 ctxA fFwd =
      some { ret := some 0,
             sent := [chirouter_send_arp_message eth0 none 0x0A0000FE ARP_OP_REQUEST],
             ctx := { ctxA with pending_arp_reqs :=
               [{ ip := 0x0A0000FE, interface := eth0, times_sent := 1,
                  last_sent := 100, withheld_frames := [fFwd] }] } }
    ∧ chirouter_send_arp_message eth0 none 0x0A0000FE ARP_OP_REQUEST =
        OutMsg.arp eth0
          { ethDst := BROADCAST_MAC, ethSrc := eth0.mac, op := ARP_OP_REQUEST,
            sha := eth0.mac, spa := eth0.ip, tha := 0, tpa := 0x0A0000FE } := by
  have h := c6_arp_miss_single_request allocOK 100 ctxA fFwd entry0 none rfl
    (by decide) rfl rfl rfl rfl rfl
  exact ⟨h.1, h.2.1⟩

/-- Claim C5: when an ARP reply arrives whose target protocol address
equals the ingress interface's IP (and the cache insertion allocates),
the router inserts (spa, sha) into the ARP cache; if a pending request
for spa exists, the call emits exactly the drain outputs of its withheld
frames, one output per frame in order (exactly once: same length), where
a TTL-1 frame becomes ICMP time exceeded on its original ingress
interface and any other frame is forwarded with destination MAC sha;
afterwards the pending entry is removed (freeing its withheld frames
with it). -/
theorem c5_arp_reply_drain (a : Alloc) (now : Nat) (ctx : Ctx) (frame : InFrame)
    (pr : PendingReq) (msgs : List OutMsg)
    (hty : frame.etherType = ETHERTYPE_ARP)
    (htpa : frame.arp.tpa = frame.in_interface.ip)
    (hop : frame.arp.op = ARP_OP_REPLY)
    (hok : a.cache_add_ok = true)
    (hpr : chirouter_arp_pending_req_lookup
        (chirouter_arp_cache_add ctx frame.arp.spa frame.arp.sha now) frame.arp.spa = some pr)
    (hdrain : drainOutputs (chirouter_arp_cache_add ctx frame.arp.spa frame.arp.sha now)
        frame.arp.sha pr.withheld_frames = some msgs) :
    (chirouter_process_ethernet_frame a now ctx frame =
      some { ret := some 0, sent := msgs,
             ctx := { chirouter_arp_cache_add ctx frame.arp.spa frame.arp.sha now with
                      pending_arp_reqs := removePendingReq (chirouter_arp_cache_add ctx frame.arp.spa frame.arp.sha now).pending_arp_reqs frame.arp.spa } })
    ∧ chirouter_arp_cache_lookup (chirouter_arp_cache_add ctx frame.arp.spa frame.arp.sha now)
        frame.arp.spa = some { ip := frame.arp.spa, mac := frame.arp.sha, time := now }
    ∧ msgs.length = pr.withheld_frames.length
    ∧ (∀ w ∈ pr.withheld_frames, w.ip.ttl = 1 →
        drainMsg (chirouter_arp_cache_add ctx frame.arp.spa frame.arp.sha now) frame.arp.sha w =
          some (OutMsg.icmp w.in_interface (buildIcmp ICMPTYPE_TIME_EXCEEDED 0 w)))
    ∧ (∀ w ∈ pr.withheld_frames, w.ip.ttl ≠ 1 →
        drainMsg (chirouter_arp_cache_add ctx frame.arp.spa frame.arp.sha now) frame.arp.sha w =
          forward_ip_datagram (chirouter_arp_cache_add ctx frame.arp.spa frame.arp.sha now) w frame.arp.sha) := by
  refine ⟨?_, arp_cache_lookup_add ctx frame.arp.spa frame.arp.sha now,
    mapOptionList_length _ pr.withheld_frames msgs hdrain, ?_, ?_⟩
  · simp only [chirouter_process_ethernet_frame]
    rw [hty]
    rw [if_neg (by decide : ¬ (ETHERTYPE_ARP = ETHERTYPE_IP ∨ ETHERTYPE_ARP = ETHERTYPE_IPV6))]
    rw [if_pos (rfl : ETHERTYPE_ARP = ETHERTYPE_ARP)]
    rw [if_pos htpa, if_pos hop, hok]
    rw [if_pos (rfl : true = true)]
    rw [hpr]
    simp only []
    rw [hdrain]
    rfl
  · intro w hw httl
    unfold drainMsg
    rw [if_pos httl]
    exact send_icmp_time_exceeded w
  · intro w hw httl
    unfold drainMsg
    rw [if_neg httl]

def shaB : Nat := 0x02BB00000001

def ctxPendAdd : Ctx := chirouter_arp_cache_add ctxPend 0x0A0000FE shaB 100

def drainMsgs0 : List OutMsg :=
  [OutMsg.fwd eth0 (buildFwd entry0 fFwd shaB),
   OutMsg.icmp eth0 (buildIcmp ICMPTYPE_TIME_EXCEEDED 0 fFwdTtl1)]

/-- Witness for claim C5: the ARP-reply-drains scenario of spec section 8
with two withheld datagrams, one of them with TTL 1: the first is
forwarded with the resolved MAC, the second answered with time exceeded,
the cache holds the new entry and the pending entry is gone. -/
theorem c5_witness :
    (chirouter_process_ethernet_frame allocOK 100 ctxPend fArpReply =
      some { ret := some 0, sent := drainMsgs0,
             ctx := { ctxPendAdd with pending_arp_reqs := removePendingReq ctxPendAdd.pending_arp_reqs 0x0A0000FE } })
    ∧ chirouter_arp_cache_lookup ctxPendAdd 0x0A0000FE =
        some { ip := 0x0A0000FE, mac := shaB, time := 100 }
    ∧ drainMsgs0.length = pend0.withheld_frames.length
    ∧ drainMsg ctxPendAdd shaB fFwdTtl1 =
        some (OutMsg.icmp fFwdTtl1.in_interface (buildIcmp ICMPTYPE_TIME_EXCEEDED 0 fFwdTtl1))
    ∧ drainMsg ctxPendAdd shaB fFwd = forward_ip_datagram ctxPendAdd fFwd shaB := by
  have h := c5_arp_reply_drain allocOK 100 ctxPend fArpReply pend0 drainMsgs0
    rfl rfl rfl rfl rfl rfl
  exact ⟨h.1, h.2.1, h.2.2.1,
    h.2.2.2.1 fFwdTtl1 (by decide) rfl,
    h.2.2.2.2 fFwd (by decide) (by decide)⟩
